import Mathlib

/-!
Shallow embedding of the drone-swarm simulation core (environment.py,
drone.py, behavior.py, event_system.py) and verification of its
specification claims.

Conventions of the embedding:
* Python ints are `Int` (entity ids are `Nat`, from `id()`).
* Mutation is explicit state passing: each `execute`/`update` returns the
  new object state, the new drone position, the list of events fired during
  the call (in firing order), and the method's boolean return value.
* `random.choice` in Explore/Search is modelled by passing the chosen
  direction string as an explicit argument.
* Event payloads keep the fields the claims are about; the `drone=` field of
  each payload is the acting agent itself and is left implicit.
-/

namespace Swarm

/-- Model of `Position` from environment.py: integer pair with value equality. -/
structure Position where
  x : Int
  y : Int
deriving DecidableEq

/-- Model of `Position.__add__`. -/
def Position.add (p q : Position) : Position :=
  ⟨p.x + q.x, p.y + q.y⟩

/-- Model of `Entity` from environment.py: identity, position and type tag. -/
structure Entity where
  id : Nat
  position : Position
  entity_type : String
deriving DecidableEq

/-- The state of `GridEnvironment` that the core consumes: bounds and the
entity registry. -/
structure Grid where
  width : Int
  height : Int
  entities : List Entity
deriving DecidableEq

/-- Model of `GridEnvironment.is_valid_position`. -/
def Grid.is_valid_position (g : Grid) (p : Position) : Prop :=
  0 ≤ p.x ∧ p.x < g.width ∧ 0 ≤ p.y ∧ p.y < g.height

instance (g : Grid) (p : Position) : Decidable (g.is_valid_position p) := by
  unfold Grid.is_valid_position; infer_instance

/-- Model of `GridEnvironment.get_entities_at`. -/
def Grid.get_entities_at (g : Grid) (p : Position) : List Entity :=
  g.entities.filter (fun e => e.position = p)

/-- Events fired through `environment.event_manager.trigger` by the core. -/
inductive Event where
  | drone_moved (position : Position)
  | movement_blocked (direction : String)
  | scan_completed (entities : List Entity)
  | target_detected (targets : List Entity)
deriving DecidableEq

/-- The `DIRECTIONS` table from drone.py, as a partial map: an unknown
direction string has no entry. -/
def DIRECTIONS : String → Option Position
  | "up" => some ⟨0, -1⟩
  | "down" => some ⟨0, 1⟩
  | "left" => some ⟨-1, 0⟩
  | "right" => some ⟨1, 0⟩
  | "stay" => some ⟨0, 0⟩
  | _ => none

/-- State of a `MoveAction`: direction string and completed flag. -/
structure MoveAction where
  direction : String
  completed : Bool
deriving DecidableEq

/-- Result of one `MoveAction.execute` call. -/
structure MoveResult where
  action : MoveAction
  pos : Position
  events : List Event
  ret : Bool
deriving DecidableEq

/-- Model of `MoveAction.execute` from drone.py: idempotent after completion;
unknown direction completes as a no-op; a valid candidate position commits
the move and fires `drone_moved`; an invalid one leaves the position and
fires `movement_blocked`; every branch marks the action completed. -/
def MoveAction.execute (a : MoveAction) (pos : Position) (g : Grid) :
    MoveResult :=
  if a.completed then ⟨a, pos, [], true⟩
  else
    match DIRECTIONS a.direction with
    | none => ⟨{ a with completed := true }, pos, [], true⟩
    | some delta =>
      let new_position := pos.add delta
      if g.is_valid_position new_position then
        ⟨{ a with completed := true }, new_position,
          [Event.drone_moved new_position], true⟩
      else
        ⟨{ a with completed := true }, pos,
          [Event.movement_blocked a.direction], true⟩

/-- State of a `WaitAction`. -/
structure WaitAction where
  ticks : Int
  current_tick : Int
  completed : Bool
deriving DecidableEq

/-- Model of `WaitAction.execute`: increments the tick counter, completing once it
reaches `ticks`. -/
def WaitAction.execute (a : WaitAction) : WaitAction × Bool :=
  if a.completed then (a, true)
  else
    let t := a.current_tick + 1
    if a.ticks ≤ t then ({ a with current_tick := t, completed := true }, true)
    else ({ a with current_tick := t }, false)

/-- The offsets `-r, …, r` iterated by the nested `for dx/dy in
range(-r, r+1)` loops (empty when `r < 0`, as in Python). -/
def scanOffsets (r : Int) : List Int :=
  (List.range (2 * r + 1).toNat).map (fun (i : Nat) => -r + (i : Int))

/-- The nested scan loops shared by `ScanAction.execute` and
`Detector.check`: all entities found at valid positions of the
Chebyshev square of radius `r` around `center`, in loop order. -/
def scanSquare (r : Int) (center : Position) (g : Grid) : List Entity :=
  (scanOffsets r).flatMap fun dx =>
    (scanOffsets r).flatMap fun dy =>
      let scan_pos : Position := ⟨center.x + dx, center.y + dy⟩
      if g.is_valid_position scan_pos then g.get_entities_at scan_pos else []

/-- State of a `ScanAction`. -/
structure ScanAction where
  range : Int
  completed : Bool
deriving DecidableEq

/-- Model of `ScanAction.execute`: collects entities in the square, fires
`scan_completed`, completes in the same tick. -/
def ScanAction.execute (a : ScanAction) (pos : Position) (g : Grid) :
    ScanAction × List Event × Bool :=
  if a.completed then (a, [], true)
  else
    let detected_entities := scanSquare a.range pos g
    ({ a with completed := true },
      [Event.scan_completed detected_entities], true)

/-- The closed variant type of primitive actions. -/
inductive Action where
  | move (a : MoveAction)
  | wait (a : WaitAction)
  | scan (a : ScanAction)
deriving DecidableEq

/-- Result of one `Action.execute` dispatch. -/
structure ActionResult where
  action : Action
  pos : Position
  events : List Event
  ret : Bool
deriving DecidableEq

/-- Dynamic dispatch of `execute` over the action variants. -/
def Action.execute : Action → Position → Grid → ActionResult
  | .move a, pos, g =>
    let r := a.execute pos g
    ⟨.move r.action, r.pos, r.events, r.ret⟩
  | .wait a, pos, _ =>
    let (a', ret) := a.execute
    ⟨.wait a', pos, [], ret⟩
  | .scan a, pos, g =>
    let (a', evs, ret) := a.execute pos g
    ⟨.scan a', pos, evs, ret⟩

/-- Model of `Detector.check` from drone.py, for a detector attached to the entity
`drone` (the unattached early-return case does not arise in the embedding):
returns the filtered target list and the events fired. -/
def Detector.check (range : Int) (drone : Entity) (g : Grid) :
    List Entity × List Event :=
  let detected_entities := scanSquare range drone.position g
  let targets := detected_entities.filter
    (fun e => e.entity_type = "target" ∧ e.id ≠ drone.id)
  if targets.isEmpty then (targets, [])
  else (targets, [Event.target_detected targets])

/-- The body of the `_plan_path` while loop from behavior.py, iterated
structurally on `fuel`. Each loop iteration reduces the Manhattan distance
to the target by exactly one, so running the body `fuel` times with `fuel`
equal to that distance reproduces the loop: when the fuel runs out the
loop condition `current ≠ target` has just become false. -/
def planPathAux : Nat → Position → Position → List MoveAction
  | 0, _, _ => []
  | fuel + 1, current, target =>
    if current.x < target.x then
      ⟨"right", false⟩ :: planPathAux fuel ⟨current.x + 1, current.y⟩ target
    else if target.x < current.x then
      ⟨"left", false⟩ :: planPathAux fuel ⟨current.x - 1, current.y⟩ target
    else if current.y < target.y then
      ⟨"down", false⟩ :: planPathAux fuel ⟨current.x, current.y + 1⟩ target
    else if target.y < current.y then
      ⟨"up", false⟩ :: planPathAux fuel ⟨current.x, current.y - 1⟩ target
    else []

/-- Model of `MoveToBehavior._plan_path` from behavior.py: the while loop that
resolves the x mismatch completely ("right"/"left") before the y mismatch
("down"/"up"), one unit-step `MoveAction` per iteration. -/
def plan_path (current target : Position) : List MoveAction :=
  planPathAux
    ((target.x - current.x).natAbs + (target.y - current.y).natAbs)
    current target

/-- State of a `MoveToBehavior`. -/
structure MoveToBehavior where
  completed : Bool
  target_position : Position
  path : List MoveAction
  current_action : Option MoveAction
deriving DecidableEq

/-- Model of `MoveToBehavior.start` (via `_plan_path`): replace the path by a fresh
plan from the drone's position. -/
def MoveToBehavior.start (b : MoveToBehavior) (pos : Position) :
    MoveToBehavior :=
  { b with path := plan_path pos b.target_position }

/-- Result of one `MoveToBehavior.update` call. `replanned` is a ghost
observation recording whether `self._plan_path(drone)` was invoked during
the call (behavior.py line 71); it corresponds to no stored state. -/
structure MoveToResult where
  behavior : MoveToBehavior
  pos : Position
  events : List Event
  ret : Bool
  replanned : Bool
deriving DecidableEq

/-- Model of `MoveToBehavior.update` from behavior.py: completed is sticky; if the
drone is at the target, mark completed and return true; otherwise pop one
action from the path if none is in flight, execute it, and when it
completes while the drone is still away from the target, replan the whole
path from the current position. -/
def MoveToBehavior.update (b : MoveToBehavior) (pos : Position) (g : Grid) :
    MoveToResult :=
  if b.completed then ⟨b, pos, [], true, false⟩
  else if pos.x = b.target_position.x ∧ pos.y = b.target_position.y then
    ⟨{ b with completed := true }, pos, [], true, false⟩
  else
    let popped : Option MoveAction × List MoveAction :=
      match b.current_action, b.path with
      | none, a :: rest => (some a, rest)
      | ca, path => (ca, path)
    match popped with
    | (none, _) => ⟨b, pos, [], false, false⟩
    | (some a, path) =>
      let r := a.execute pos g
      if r.ret then
        if r.pos.x ≠ b.target_position.x ∨ r.pos.y ≠ b.target_position.y then
          ⟨{ b with
              current_action := none
              path := plan_path r.pos b.target_position },
            r.pos, r.events, false, true⟩
        else
          ⟨{ b with current_action := none, path := path },
            r.pos, r.events, false, false⟩
      else
        ⟨{ b with current_action := some r.action, path := path },
          r.pos, r.events, false, false⟩

/-- State of an `ExploreBehavior`. -/
structure ExploreBehavior where
  completed : Bool
  steps : Int
  current_step : Int
  current_action : Option MoveAction
deriving DecidableEq

/-- Result of one `ExploreBehavior.update` call. -/
structure ExploreResult where
  behavior : ExploreBehavior
  pos : Position
  events : List Event
  ret : Bool
deriving DecidableEq

/-- Model of `ExploreBehavior.update` from behavior.py: sticky completion; terminal
only when `steps > 0` and the step counter has reached `steps`; otherwise
execute the in-flight move or a fresh move in the direction `dir` chosen
by `random.choice`, counting completed moves. -/
def ExploreBehavior.update (b : ExploreBehavior) (dir : String)
    (pos : Position) (g : Grid) : ExploreResult :=
  if b.completed then ⟨b, pos, [], true⟩
  else if b.steps > 0 ∧ b.current_step ≥ b.steps then
    ⟨{ b with completed := true }, pos, [], true⟩
  else
    let a := b.current_action.getD ⟨dir, false⟩
    let r := a.execute pos g
    if r.ret then
      ⟨{ b with
          current_action := none
          current_step := b.current_step + 1 }, r.pos, r.events, false⟩
    else
      ⟨{ b with current_action := some r.action }, r.pos, r.events, false⟩

/-- State of a `PatrolBehavior`. -/
structure PatrolBehavior where
  completed : Bool
  waypoints : List Position
  current_waypoint_index : Nat
  loops : Int
  current_loop : Int
  current_move_behavior : Option MoveToBehavior
deriving DecidableEq

/-- Result of one `PatrolBehavior.update` call. -/
structure PatrolResult where
  behavior : PatrolBehavior
  pos : Position
  events : List Event
  ret : Bool
deriving DecidableEq

/-- Whether behavior.py line 118 takes the creation branch:
`self.current_move_behavior is None or self.current_move_behavior.completed`. -/
def needsNewMove : Option MoveToBehavior → Bool
  | none => true
  | some m => m.completed

/-- Model of `PatrolBehavior.update` from behavior.py. `none` models the uncaught
`IndexError` raised by `self.waypoints[self.current_waypoint_index]` when
the waypoint list is empty (the `% len(...)` on the next line would also
raise); every normal return is `some`. -/
def PatrolBehavior.update (b : PatrolBehavior) (pos : Position) (g : Grid) :
    Option PatrolResult :=
  if b.completed then some ⟨b, pos, [], true⟩
  else if needsNewMove b.current_move_behavior then
    match b.waypoints.get? b.current_waypoint_index with
    | none => none
    | some target =>
      let mb := MoveToBehavior.start ⟨false, target, [], none⟩ pos
      let idx := (b.current_waypoint_index + 1) % b.waypoints.length
      let loop :=
        if idx = 0 then b.current_loop + 1 else b.current_loop
      let b' := { b with
        current_move_behavior := some mb
        current_waypoint_index := idx
        current_loop := loop }
      if idx = 0 ∧ 0 ≤ b.loops ∧ b.loops ≤ loop then
        some ⟨{ b' with completed := true }, pos, [], true⟩
      else
        let r := mb.update pos g
        some ⟨{ b' with current_move_behavior := some r.behavior },
          r.pos, r.events, false⟩
  else
    match b.current_move_behavior with
    | none => none
    | some mb =>
      let r := mb.update pos g
      some ⟨{ b with current_move_behavior := some r.behavior },
        r.pos, r.events, false⟩

/-- State of a `SearchBehavior`. -/
structure SearchBehavior where
  completed : Bool
  steps_between_scans : Int
  scan_range : Int
  max_steps : Int
  step_count : Int
  total_steps : Int
  current_action : Option Action
deriving DecidableEq

/-- Result of one `SearchBehavior.update` call. -/
structure SearchResult where
  behavior : SearchBehavior
  pos : Position
  events : List Event
  ret : Bool
deriving DecidableEq

/-- Model of `SearchBehavior.update` from behavior.py: sticky completion; terminal
only when `max_steps > 0` and the cumulative step counter has reached it;
otherwise issue a `ScanAction` (resetting the cadence counter) when the
cadence counter has reached `steps_between_scans`, else a `MoveAction` in
the direction `dir` chosen by `random.choice`; on completion of the
executed action, count it if and only if it is a move. -/
def SearchBehavior.update (b : SearchBehavior) (dir : String)
    (pos : Position) (g : Grid) : SearchResult :=
  if b.completed then ⟨b, pos, [], true⟩
  else if b.max_steps > 0 ∧ b.total_steps ≥ b.max_steps then
    ⟨{ b with completed := true }, pos, [], true⟩
  else
    let issued : Action × Int :=
      match b.current_action with
      | some a => (a, b.step_count)
      | none =>
        if b.step_count ≥ b.steps_between_scans then
          (Action.scan ⟨b.scan_range, false⟩, 0)
        else
          (Action.move ⟨dir, false⟩, b.step_count)
    let r := issued.1.execute pos g
    if r.ret then
      let isMove : Bool := match r.action with
        | .move _ => true
        | _ => false
      ⟨{ b with
          current_action := none
          step_count := if isMove then issued.2 + 1 else issued.2
          total_steps := if isMove then b.total_steps + 1 else b.total_steps },
        r.pos, r.events, false⟩
    else
      ⟨{ b with current_action := some r.action, step_count := issued.2 },
        r.pos, r.events, false⟩

/-- The closed variant type of behaviors. -/
inductive Behavior where
  | moveTo (b : MoveToBehavior)
  | explore (b : ExploreBehavior)
  | patrol (b : PatrolBehavior)
  | search (b : SearchBehavior)
deriving DecidableEq

/-- Dispatch of `Behavior.start`: only `MoveToBehavior` overrides the base
class no-op. -/
def Behavior.start : Behavior → Position → Behavior
  | .moveTo b, pos => .moveTo (b.start pos)
  | b, _ => b

/-- The `Drone` state the claims are about (drone.py): position, identity,
current action slot, pending action queue, active behavior. -/
structure Drone where
  position : Position
  drone_id : Int
  current_action : Option Action
  action_queue : List Action
  current_behavior : Option Behavior
deriving DecidableEq

/-- Model of `Drone.clear_actions`: empties both the queue and the current slot. -/
def Drone.clear_actions (d : Drone) : Drone :=
  { d with action_queue := [], current_action := none }

/-- Model of `Drone.set_behavior`: clear all actions, install the behavior, and (if
one was given) call its `start` with the drone. -/
def Drone.set_behavior (d : Drone) (behavior : Option Behavior) : Drone :=
  let d' := d.clear_actions
  { d' with current_behavior := behavior.map (fun b => b.start d'.position) }

/-- Model of `Event` from event_system.py: a type tag plus the keyword payload
(payload type `π`). -/
structure PEvent (π : Type) where
  event_type : String
  data : π
deriving DecidableEq

/-- Model of `EventManager` from event_system.py: a dict from event type to the
ordered list of callbacks, modelled as an association list in key-insertion
order (callbacks of type `α`). -/
structure EventManager (α : Type) where
  callbacks : List (String × List α)
deriving DecidableEq

/-- Dict update `self.callbacks[event_type].append(callback)`, creating the
entry (with an empty list, then the append) when the key is missing. -/
def addCallback {α : Type} :
    List (String × List α) → String → α → List (String × List α)
  | [], event_type, cb => [(event_type, [cb])]
  | (k, cbs) :: rest, event_type, cb =>
    if k = event_type then (k, cbs ++ [cb]) :: rest
    else (k, cbs) :: addCallback rest event_type cb

/-- Model of `EventManager.on` (`EventManager.register` wraps the same append). -/
def EventManager.on {α : Type} (em : EventManager α) (event_type : String)
    (cb : α) : EventManager α :=
  ⟨addCallback em.callbacks event_type cb⟩

/-- Dict lookup `self.callbacks[event_type]` (first matching key). -/
def lookupCallbacks {α : Type} :
    List (String × List α) → String → Option (List α)
  | [], _ => none
  | (k, cbs) :: rest, event_type =>
    if k = event_type then some cbs else lookupCallbacks rest event_type

/-- The handlers currently subscribed to an event type, in subscription
order (empty when the key is absent). -/
def EventManager.handlersFor {α : Type} (em : EventManager α)
    (event_type : String) : List α :=
  (lookupCallbacks em.callbacks event_type).getD []

/-- Model of `EventManager.trigger`: builds one `Event(event_type, **kwargs)` and
calls each subscribed callback with it, in order; the returned list is the
sequence of (callback, event) invocations the call performs. -/
def EventManager.trigger {α π : Type} (em : EventManager α)
    (event_type : String) (payload : π) : List (α × PEvent π) :=
  match lookupCallbacks em.callbacks event_type with
  | none => []
  | some cbs => cbs.map (fun cb => (cb, ⟨event_type, payload⟩))

/-- Model of `EventManager.clear_all`. -/
def EventManager.clear_all {α : Type} (_ : EventManager α) :
    EventManager α :=
  ⟨[]⟩

/-- Registering a list of (event type, callback) subscriptions in order. -/
def registerAll {α : Type} (regs : List (String × α))
    (em : EventManager α) : EventManager α :=
  regs.foldl (fun e r => e.on r.1 r.2) em

/-! ### Simulation runners and concrete fixtures for the scenario claims -/

/-- A drone running a `MoveToBehavior`, reduced to the state that behavior
reads and writes: the behavior and the drone's position. -/
structure MoveToSim where
  behavior : MoveToBehavior
  pos : Position
deriving DecidableEq

/-- One tick: `MoveToBehavior.update` driven from `Drone.update`. -/
def moveToTick (g : Grid) (s : MoveToSim) : MoveToSim × Bool :=
  let r := s.behavior.update s.pos g
  (⟨r.behavior, r.pos⟩, r.ret)

/-- The per-tick trace of a `MoveToBehavior` run: the state after each tick
paired with that tick's `update` return value. -/
def moveToTrace (g : Grid) : Nat → MoveToSim → List (MoveToSim × Bool)
  | 0, _ => []
  | n + 1, s =>
    let (s', ret) := moveToTick g s
    (s', ret) :: moveToTrace g n s'

/-- A drone running a `PatrolBehavior`. -/
structure PatrolSim where
  behavior : PatrolBehavior
  pos : Position
deriving DecidableEq

/-- One tick of a patrol run; `none` propagates the `IndexError` case. -/
def patrolTick (g : Grid) (s : PatrolSim) : Option (PatrolSim × Bool) :=
  (s.behavior.update s.pos g).map fun r => (⟨r.behavior, r.pos⟩, r.ret)

/-- The per-tick trace of a `PatrolBehavior` run (cut short on error). -/
def patrolTrace (g : Grid) : Nat → PatrolSim → List (PatrolSim × Bool)
  | 0, _ => []
  | n + 1, s =>
    match patrolTick g s with
    | none => []
    | some (s', ret) => (s', ret) :: patrolTrace g n s'

/-- Whether the patrol's nested `MoveToBehavior` currently holds
`completed = true`. -/
def nestedDone (s : PatrolSim) : Bool :=
  match s.behavior.current_move_behavior with
  | some m => m.completed
  | none => false

/-- How many times along a sequence of per-tick states the nested
`MoveToBehavior` newly reaches its completed state: each fresh nested
behavior starts with `completed = false`, so one false→true transition of
the nested flag is observed per `MoveToBehavior` instance that completes. -/
def countNewCompletions : List PatrolSim → Nat
  | a :: b :: rest =>
    (if !nestedDone a && nestedDone b then 1 else 0) +
      countNewCompletions (b :: rest)
  | _ => 0

/-- A drone running a `SearchBehavior`. -/
structure SearchSim where
  behavior : SearchBehavior
  pos : Position
deriving DecidableEq

/-- The per-tick trace of a `SearchBehavior` run, one `random.choice`
direction per tick, recording each tick's fired events. -/
def searchTrace (g : Grid) : List String → SearchSim →
    List (SearchSim × List Event)
  | [], _ => []
  | dir :: dirs, s =>
    let r := s.behavior.update dir s.pos g
    (⟨r.behavior, r.pos⟩, r.events) :: searchTrace g dirs ⟨r.behavior, r.pos⟩

/-- An obstruction-free 10×10 grid with no registered entities. -/
def grid10 : Grid :=
  ⟨10, 10, []⟩

/-- Chebyshev distance between two positions. -/
def chebyshev (p q : Position) : Nat :=
  max (p.x - q.x).natAbs (p.y - q.y).natAbs

/-- Fixture: `MoveToBehavior((3,2))` freshly constructed and started on a drone at
(0,0). -/
def moveTo32from00 : MoveToBehavior :=
  MoveToBehavior.start ⟨false, ⟨3, 2⟩, [], none⟩ ⟨0, 0⟩

/-- The 6-tick run of `moveTo32from00` on the obstruction-free grid. -/
def moveToRun : List (MoveToSim × Bool) :=
  moveToTrace grid10 6 ⟨moveTo32from00, ⟨0, 0⟩⟩

/-- Fixture: `PatrolBehavior([(0,0),(5,5)], loops=2)` freshly constructed. -/
def patrolTwoLoops : PatrolBehavior :=
  ⟨false, [⟨0, 0⟩, ⟨5, 5⟩], 0, 2, 0, none⟩

/-- The 24-tick run of `patrolTwoLoops` started on a drone at (0,0). -/
def patrolRun : List (PatrolSim × Bool) :=
  patrolTrace grid10 24 ⟨patrolTwoLoops, ⟨0, 0⟩⟩

/-- The per-tick states of `patrolRun`, preceded by the initial state. -/
def patrolStates : List PatrolSim :=
  ⟨patrolTwoLoops, ⟨0, 0⟩⟩ :: patrolRun.map Prod.fst

/-- Fixture: `SearchBehavior(steps_between_scans=2, scan_range=1)` freshly
constructed. -/
def search21 : SearchBehavior :=
  ⟨false, 2, 1, -1, 0, 0, none⟩

/-- A 4-tick run of `search21` from (5,5), the random choice picking
"right" each tick. -/
def searchRun : List (SearchSim × List Event) :=
  searchTrace grid10 ["right", "right", "right", "right"] ⟨search21, ⟨5, 5⟩⟩

/-- Fixture: `ExploreBehavior(steps=0)` freshly constructed. -/
def explore0 : ExploreBehavior :=
  ⟨false, 0, 0, none⟩

/-- Fixture: `SearchBehavior(max_steps=0)` freshly constructed. -/
def search0 : SearchBehavior :=
  ⟨false, 1, 1, 0, 0, 0, none⟩

/-- A drone entity at (5,5). -/
def scoutAt55 : Entity :=
  ⟨0, ⟨5, 5⟩, "drone"⟩

/-- A target entity at (6,7): Chebyshev distance 2 from (5,5). -/
def targetAt67 : Entity :=
  ⟨1, ⟨6, 7⟩, "target"⟩

/-- A target entity at (8,5): Chebyshev distance 3 from (5,5). -/
def targetAt85 : Entity :=
  ⟨2, ⟨8, 5⟩, "target"⟩

/-- A 20×20 grid holding the detector's drone and the two targets. -/
def grid20 : Grid :=
  ⟨20, 20, [scoutAt55, targetAt67, targetAt85]⟩

/-! ### Helper lemmas -/

/-- A `MoveAction.execute` call always returns true: movement is a
single-attempt operation, completed in every branch. -/
theorem moveAction_execute_ret (a : MoveAction) (pos : Position) (g : Grid) :
    (a.execute pos g).ret = true := by
  unfold MoveAction.execute
  split
  · rfl
  · cases DIRECTIONS a.direction
    · rfl
    · simp only []
      split <;> rfl

/-- Membership in the offset list of the scan loops. -/
theorem mem_scanOffsets (r d : Int) : d ∈ scanOffsets r ↔ -r ≤ d ∧ d ≤ r := by
  unfold scanOffsets
  constructor
  · intro hmem
    obtain ⟨i, hi, hd⟩ := List.mem_map.mp hmem
    rw [List.mem_range] at hi
    omega
  · intro h
    exact List.mem_map.mpr
      ⟨(d + r).toNat, List.mem_range.mpr (by omega), by omega⟩

/-- An entity is collected by the nested scan loops exactly when it is
registered, lies at a valid position, and is within Chebyshev distance `r`
of the scan center. -/
theorem mem_scanSquare (r : Int) (c : Position) (g : Grid) (e : Entity) :
    e ∈ scanSquare r c g ↔
      e ∈ g.entities ∧ g.is_valid_position e.position ∧
        (chebyshev e.position c : Int) ≤ r := by
  unfold scanSquare Grid.get_entities_at
  simp only [List.mem_flatMap]
  constructor
  · rintro ⟨dx, hdx, dy, hdy, he⟩
    rw [mem_scanOffsets] at hdx hdy
    split at he
    · rename_i hv
      rw [List.mem_filter] at he
      obtain ⟨hmem, hpos⟩ := he
      have hpos' : e.position = ⟨c.x + dx, c.y + dy⟩ := by
        simpa using hpos
      refine ⟨hmem, by rw [hpos']; exact hv, ?_⟩
      rw [hpos']
      unfold chebyshev
      simp only []
      omega
    · exact absurd he (List.not_mem_nil e)
  · rintro ⟨hmem, hv, hcheb⟩
    refine ⟨e.position.x - c.x, ?_, e.position.y - c.y, ?_, ?_⟩
    · rw [mem_scanOffsets]
      unfold chebyshev at hcheb
      omega
    · rw [mem_scanOffsets]
      unfold chebyshev at hcheb
      omega
    · have hpos : (⟨c.x + (e.position.x - c.x), c.y + (e.position.y - c.y)⟩ :
          Position) = e.position := by
        cases e.position
        simp only [Position.mk.injEq]
        omega
      rw [hpos, if_pos hv, List.mem_filter]
      exact ⟨hmem, by simp⟩

/-- Expression of `trigger` in terms of the subscribed handler list. -/
theorem trigger_eq_handlersFor {α π : Type} (em : EventManager α)
    (event_type : String) (payload : π) :
    em.trigger event_type payload =
      (em.handlersFor event_type).map (fun cb => (cb, ⟨event_type, payload⟩)) := by
  unfold EventManager.trigger EventManager.handlersFor
  cases lookupCallbacks em.callbacks event_type <;> rfl

/-- Appending one callback touches exactly the entry of its event type. -/
theorem lookupCallbacks_addCallback {α : Type}
    (l : List (String × List α)) (m n : String) (c : α) :
    lookupCallbacks (addCallback l m c) n =
      if m = n then some ((lookupCallbacks l n).getD [] ++ [c])
      else lookupCallbacks l n := by
  induction l with
  | nil =>
    unfold addCallback lookupCallbacks
    by_cases h : m = n <;> simp [h, lookupCallbacks]
  | cons kv rest ih =>
    obtain ⟨k, cbs⟩ := kv
    unfold addCallback
    by_cases hk : k = m
    · subst hk
      unfold lookupCallbacks
      by_cases h : k = n <;> simp [h]
    · rw [if_neg hk]
      unfold lookupCallbacks
      by_cases h : k = n
      · subst h
        have hmn : ¬ m = k := fun hh => hk hh.symm
        simp [hmn]
      · simp [h, ih]

/-- Lemma: `on` appends at the end of exactly its event type's handler list. -/
theorem handlersFor_on {α : Type} (em : EventManager α) (m n : String)
    (c : α) :
    (em.on m c).handlersFor n =
      em.handlersFor n ++ (if m = n then [c] else []) := by
  unfold EventManager.on EventManager.handlersFor
  simp only [lookupCallbacks_addCallback]
  by_cases h : m = n <;> simp [h]

/-- After registering a subscription list in order, the handlers for an
event type are those subscribed to it, in subscription order. -/
theorem handlersFor_registerAll {α : Type} (regs : List (String × α))
    (em : EventManager α) (n : String) :
    (registerAll regs em).handlersFor n =
      em.handlersFor n ++ (regs.filter (fun r => r.1 = n)).map Prod.snd := by
  induction regs generalizing em with
  | nil => simp [registerAll]
  | cons r rs ih =>
    obtain ⟨m, c⟩ := r
    have hstep : registerAll ((m, c) :: rs) em = registerAll rs (em.on m c) := by
      rfl
    rw [hstep, ih, handlersFor_on]
    by_cases h : m = n <;> simp [h, List.filter_cons]

/-! ### Claim theorems -/

/-- C1 (counterexample): for Patrol over waypoints [(0,0),(5,5)] with
loop_limit = 2, started on a drone at (0,0) on the obstruction-free grid
and updated once per tick, `update` first returns true on tick 24, and the
number of nested `MoveToBehavior` instances that reach their completed
state before that is 3, not 4: the loop counter reaches the limit when the
fourth MoveTo is created, and Patrol completes without ever updating it. -/
theorem patrol_two_loops_not_four_completions :
    patrolRun.map Prod.snd = List.replicate 23 false ++ [true] ∧
    countNewCompletions patrolStates ≠ 4 := by
  constructor
  · decide
  · decide

/-- C1 (amended): in the same run, exactly 3 nested MoveTo behaviors reach
their completed state before Patrol's update first returns true (on tick
24). -/
theorem patrol_two_loops_exactly_three_completions :
    countNewCompletions patrolStates = 3 ∧
    patrolRun.map Prod.snd = List.replicate 23 false ++ [true] := by
  constructor
  · decide
  · decide

/-- C2 (counterexample): for MoveTo((3,2)) started on a drone at (0,0) on
the obstruction-free grid, on the 5th tick the drone is already at (3,2)
but `update` still returns false; the first true return is on the 6th
tick. -/
theorem moveTo_fifth_tick_returns_false :
    (moveToRun.map (fun p => (p.1.pos, p.2))).get? 4 =
      some (⟨3, 2⟩, false) := by
  decide

/-- C2 (amended): the same run visits (1,0),(2,0),(3,0),(3,1),(3,2) in
that order (x-mismatch fully resolved before y-mismatch) and `update`
returns true for the first time on the 6th tick, one tick after the target
is reached. -/
theorem moveTo_visits_path_completes_on_sixth_tick :
    moveToRun.map (fun p => (p.1.pos, p.2)) =
      [(⟨1, 0⟩, false), (⟨2, 0⟩, false), (⟨3, 0⟩, false),
       (⟨3, 1⟩, false), (⟨3, 2⟩, false), (⟨3, 2⟩, true)] := by
  decide

/-- C3: for every drone state (in particular one with 3 queued actions)
and every behavior, `set_behavior` leaves an empty pending queue, an empty
current action slot, and the freshly started new behavior as the only
active behavior — the prior behavior is released in the same assignment. -/
theorem set_behavior_clears_queue_and_releases_prior :
    ∀ (d : Drone) (b : Behavior),
      (d.set_behavior (some b)).action_queue = [] ∧
      (d.set_behavior (some b)).current_action = none ∧
      (d.set_behavior (some b)).current_behavior =
        some (b.start d.position) := by
  intro d b
  exact ⟨rfl, rfl, rfl⟩

/-- C4 (counterexample): Explore with step limit 0 and Search with step
limit 0 are not terminal: their first `update` returns false and executes
a move (firing `drone_moved`) instead of reporting completed, because the
code tests `steps > 0` / `max_steps > 0`, treating 0 like a negative
limit. -/
theorem zero_step_limit_is_unbounded :
    (explore0.update "up" ⟨5, 5⟩ grid10).ret = false ∧
    (explore0.update "up" ⟨5, 5⟩ grid10).events =
      [Event.drone_moved ⟨5, 4⟩] ∧
    (search0.update "up" ⟨5, 5⟩ grid10).ret = false ∧
    (search0.update "up" ⟨5, 5⟩ grid10).events =
      [Event.drone_moved ⟨5, 4⟩] := by
  decide

/-- C4 (amended): for Explore and Search, a limit that is negative or zero
means unbounded, and a non-completed behavior's `update` reports completed
exactly when the limit is strictly positive and its counter has reached
the limit. -/
theorem explore_search_terminal_iff_positive_limit_reached :
    ∀ (e : ExploreBehavior) (s : SearchBehavior) (dir : String)
      (pos : Position) (g : Grid),
      e.completed = false → s.completed = false →
      (((e.update dir pos g).ret = true) ↔
        (0 < e.steps ∧ e.steps ≤ e.current_step)) ∧
      (((s.update dir pos g).ret = true) ↔
        (0 < s.max_steps ∧ s.max_steps ≤ s.total_steps)) := by
  intro e s dir pos g he hs
  constructor
  · unfold ExploreBehavior.update
    rw [if_neg (by simp [he])]
    split
    · rename_i h
      exact iff_of_true rfl ⟨h.1, h.2⟩
    · rename_i h
      dsimp only
      split
      · exact iff_of_false (fun hh => Bool.noConfusion hh)
          (fun hh => h ⟨hh.1, hh.2⟩)
      · exact iff_of_false (fun hh => Bool.noConfusion hh)
          (fun hh => h ⟨hh.1, hh.2⟩)
  · unfold SearchBehavior.update
    rw [if_neg (by simp [hs])]
    split
    · rename_i h
      exact iff_of_true rfl ⟨h.1, h.2⟩
    · rename_i h
      refine iff_of_false ?_ (fun hh => h ⟨hh.1, hh.2⟩)
      dsimp only
      intro hh
      revert hh
      repeat' split
      all_goals exact fun hh => Bool.noConfusion hh

/-- C4 witness: instantiating the amended theorem at the two concrete
zero-limit behaviors. -/
theorem explore_search_terminal_iff_positive_limit_reached_witness :
    (((explore0.update "up" ⟨5, 5⟩ grid10).ret = true) ↔
      (0 < explore0.steps ∧ explore0.steps ≤ explore0.current_step)) ∧
    (((search0.update "up" ⟨5, 5⟩ grid10).ret = true) ↔
      (0 < search0.max_steps ∧ search0.max_steps ≤ search0.total_steps)) :=
  explore_search_terminal_iff_positive_limit_reached explore0 search0 "up"
    ⟨5, 5⟩ grid10 rfl rfl

/-- C5 (counterexample): on the first tick of MoveTo((3,2)) from (0,0),
the move succeeds along the planned path (firing `drone_moved`), 4 of the
5 planned actions remain, and the target is still unreached — yet the
behavior performs a full replan: the code replans whenever the position
differs from the target after a completed action, not only when the path
is exhausted or the move was blocked. -/
theorem moveTo_replans_after_successful_on_path_move :
    (moveTo32from00.update ⟨0, 0⟩ grid10).replanned = true ∧
    (moveTo32from00.update ⟨0, 0⟩ grid10).events =
      [Event.drone_moved ⟨1, 0⟩] ∧
    (moveTo32from00.update ⟨0, 0⟩ grid10).pos ≠
      moveTo32from00.target_position ∧
    moveTo32from00.path.length = 5 := by
  decide

/-- C5 (amended): in a non-completed MoveTo behavior away from its target
with an action available, `update` pops and executes one action, and a
full replan from the current position occurs if and only if the drone's
position still differs from the target after the action — including after
a successful on-path move with path remaining. -/
theorem moveTo_replans_iff_off_target_after_action :
    ∀ (b : MoveToBehavior) (pos : Position) (g : Grid),
      b.completed = false →
      ¬(pos.x = b.target_position.x ∧ pos.y = b.target_position.y) →
      (b.current_action ≠ none ∨ b.path ≠ []) →
      ((b.update pos g).replanned = true ↔
        ((b.update pos g).pos.x ≠ b.target_position.x ∨
         (b.update pos g).pos.y ≠ b.target_position.y)) := by
  intro b pos g hc htgt hact
  unfold MoveToBehavior.update
  rw [if_neg (by simp [hc]), if_neg htgt]
  rcases ha : b.current_action with _ | a
  · rcases hp : b.path with _ | ⟨a, rest⟩
    · rcases hact with hact | hact
      · exact absurd ha hact
      · exact absurd hp hact
    · simp only []
      rw [moveAction_execute_ret] at *
      rw [if_pos rfl]
      split
      · rename_i h
        simpa using h
      · rename_i h
        simpa using h
  · simp only []
    rw [if_pos (moveAction_execute_ret a pos g)]
    split
    · rename_i h
      simpa using h
    · rename_i h
      simpa using h

/-- C5 witness: instantiating the amended theorem at the first tick of the
concrete MoveTo((3,2)) run. -/
theorem moveTo_replans_iff_off_target_after_action_witness :
    (moveTo32from00.update ⟨0, 0⟩ grid10).replanned = true ↔
      ((moveTo32from00.update ⟨0, 0⟩ grid10).pos.x ≠
        moveTo32from00.target_position.x ∨
       (moveTo32from00.update ⟨0, 0⟩ grid10).pos.y ≠
        moveTo32from00.target_position.y) :=
  moveTo_replans_iff_off_target_after_action moveTo32from00 ⟨0, 0⟩ grid10
    rfl (by decide) (by decide)

/-- C6: executing a not-yet-completed Move action: a known direction with
an on-grid candidate commits the position and fires `drone_moved`; a known
direction with an off-grid candidate leaves the position, still marks the
action completed (single attempt) and fires `movement_blocked`; an unknown
direction completes as a no-op with no event; all three cases return
completed in one call. -/
theorem move_execute_three_cases :
    ∀ (a : MoveAction) (pos : Position) (g : Grid),
      a.completed = false →
      ((∀ delta, DIRECTIONS a.direction = some delta →
        (g.is_valid_position (pos.add delta) →
          a.execute pos g = ⟨⟨a.direction, true⟩, pos.add delta,
            [Event.drone_moved (pos.add delta)], true⟩) ∧
        (¬ g.is_valid_position (pos.add delta) →
          a.execute pos g = ⟨⟨a.direction, true⟩, pos,
            [Event.movement_blocked a.direction], true⟩)) ∧
      (DIRECTIONS a.direction = none →
        a.execute pos g = ⟨⟨a.direction, true⟩, pos, [], true⟩) ∧
      (a.execute pos g).ret = true) := by
  intro a pos g hc
  refine ⟨?_, ?_, moveAction_execute_ret a pos g⟩
  · intro delta hdir
    unfold MoveAction.execute
    rw [if_neg (by simp [hc]), hdir]
    dsimp only
    constructor
    · intro hv
      rw [if_pos hv]
    · intro hv
      rw [if_neg hv]
  · intro hdir
    unfold MoveAction.execute
    rw [if_neg (by simp [hc]), hdir]

/-- C6 witness: instantiating the valid-move case at a concrete action. -/
theorem move_execute_three_cases_witness :
    MoveAction.execute ⟨"right", false⟩ ⟨0, 0⟩ grid10 =
      ⟨⟨"right", true⟩, ⟨1, 0⟩, [Event.drone_moved ⟨1, 0⟩], true⟩ :=
  ((move_execute_three_cases ⟨"right", false⟩ ⟨0, 0⟩ grid10 rfl).1
    ⟨1, 0⟩ rfl).1 (by decide)

/-- The detector's target list is the filtered scan of the square. -/
theorem detector_check_fst (r : Int) (drone : Entity) (g : Grid) :
    (Detector.check r drone g).1 =
      (scanSquare r drone.position g).filter
        (fun e => e.entity_type = "target" ∧ e.id ≠ drone.id) := by
  unfold Detector.check
  dsimp only
  split <;> rfl

/-- The detector fires exactly one `target_detected` event, carrying the
target list, when that list is non-empty. -/
theorem detector_check_snd (r : Int) (drone : Entity) (g : Grid) :
    (Detector.check r drone g).2 =
      if (Detector.check r drone g).1.isEmpty then []
      else [Event.target_detected (Detector.check r drone g).1] := by
  rw [detector_check_fst]
  unfold Detector.check
  dsimp only
  split
  · rfl
  · rfl

/-- C7: the detector's target list holds exactly the registered entities of
type `target`, distinct from the drone's identity, at a valid grid position
within Chebyshev distance `range` of the drone; `target_detected` fires,
carrying that list, if and only if at least one such entity exists.
Concretely, a detector with range 2 on a drone at (5,5) detects the target
at (6,7) and not the one at (8,5). (The detector reads but never writes
the drone: `Detector.check` takes the drone and returns only targets and
events.) -/
theorem detector_fires_iff_target_in_range :
    (∀ (r : Int) (drone : Entity) (g : Grid),
      (∀ e : Entity, e ∈ (Detector.check r drone g).1 ↔
        (e ∈ g.entities ∧ e.entity_type = "target" ∧ e.id ≠ drone.id ∧
         g.is_valid_position e.position ∧
         (chebyshev e.position drone.position : Int) ≤ r)) ∧
      ((Detector.check r drone g).2 ≠ [] ↔
        (∃ e, e ∈ g.entities ∧ e.entity_type = "target" ∧
          e.id ≠ drone.id ∧ g.is_valid_position e.position ∧
          (chebyshev e.position drone.position : Int) ≤ r)) ∧
      (Detector.check r drone g).2 =
        (if (Detector.check r drone g).1.isEmpty then []
         else [Event.target_detected (Detector.check r drone g).1])) ∧
    Detector.check 2 scoutAt55 grid20 =
      ([targetAt67], [Event.target_detected [targetAt67]]) := by
  constructor
  · intro r drone g
    have hmem : ∀ e : Entity, e ∈ (Detector.check r drone g).1 ↔
        (e ∈ g.entities ∧ e.entity_type = "target" ∧ e.id ≠ drone.id ∧
         g.is_valid_position e.position ∧
         (chebyshev e.position drone.position : Int) ≤ r) := by
      intro e
      rw [detector_check_fst, List.mem_filter, mem_scanSquare]
      constructor
      · rintro ⟨⟨h1, h2, h3⟩, h4⟩
        rw [decide_eq_true_eq] at h4
        exact ⟨h1, h4.1, h4.2, h2, h3⟩
      · rintro ⟨h1, h2, h3, h4, h5⟩
        exact ⟨⟨h1, h4, h5⟩, by rw [decide_eq_true_eq]; exact ⟨h2, h3⟩⟩
    have hne : (Detector.check r drone g).1 ≠ [] ↔
        (∃ e, e ∈ g.entities ∧ e.entity_type = "target" ∧
          e.id ≠ drone.id ∧ g.is_valid_position e.position ∧
          (chebyshev e.position drone.position : Int) ≤ r) := by
      constructor
      · intro h
        obtain ⟨e, he⟩ := List.exists_mem_of_ne_nil _ h
        exact ⟨e, (hmem e).mp he⟩
      · rintro ⟨e, he⟩
        exact List.ne_nil_of_mem ((hmem e).mpr he)
    refine ⟨hmem, ?_, detector_check_snd r drone g⟩
    rw [detector_check_snd]
    by_cases hE : (Detector.check r drone g).1.isEmpty = true
    · rw [if_pos hE]
      have hnil : (Detector.check r drone g).1 = [] :=
        List.isEmpty_iff.mp hE
      simp [← hne, hnil]
    · rw [if_neg hE]
      have hnn : (Detector.check r drone g).1 ≠ [] := by
        intro h
        exact hE (by rw [h]; rfl)
      simp [← hne, hnn]
  · decide

/-- C8: in a non-completed, non-terminal Search behavior with no action in
flight, a Scan is issued exactly when the cadence counter has reached
`steps_between_scans` — completing in the same tick, resetting the cadence
counter and leaving the cumulative step counter unchanged — and otherwise
a Move is issued, whose completion increments both counters. In the
concrete Search(cadence=2, radius=1) run the first two Move completions
are followed by exactly one Scan before the next Move. -/
theorem search_scan_cadence_discipline :
    (∀ (b : SearchBehavior) (dir : String) (pos : Position) (g : Grid),
      b.completed = false → b.current_action = none →
      ¬(0 < b.max_steps ∧ b.max_steps ≤ b.total_steps) →
      ((b.steps_between_scans ≤ b.step_count →
        (b.update dir pos g).behavior.step_count = 0 ∧
        (b.update dir pos g).behavior.total_steps = b.total_steps ∧
        (b.update dir pos g).events =
          [Event.scan_completed (scanSquare b.scan_range pos g)] ∧
        (b.update dir pos g).behavior.current_action = none) ∧
       (b.step_count < b.steps_between_scans →
        (b.update dir pos g).behavior.step_count = b.step_count + 1 ∧
        (b.update dir pos g).behavior.total_steps = b.total_steps + 1 ∧
        (b.update dir pos g).behavior.current_action = none))) ∧
    searchRun.map (fun p => p.2) =
      [[Event.drone_moved ⟨6, 5⟩], [Event.drone_moved ⟨7, 5⟩],
       [Event.scan_completed []], [Event.drone_moved ⟨8, 5⟩]] := by
  constructor
  · intro b dir pos g hb hca hterm
    constructor
    · intro hsc
      unfold SearchBehavior.update
      rw [if_neg (by simp [hb]), if_neg hterm, hca]
      dsimp only
      rw [if_pos hsc]
      exact ⟨rfl, rfl, rfl, rfl⟩
    · intro hsc
      unfold SearchBehavior.update
      rw [if_neg (by simp [hb]), if_neg hterm, hca]
      dsimp only
      rw [if_neg (not_le.mpr hsc)]
      have hret : ((Action.move (⟨dir, false⟩ : MoveAction),
          b.step_count).1.execute pos g).ret = true :=
        moveAction_execute_ret ⟨dir, false⟩ pos g
      rw [if_pos hret]
      exact ⟨rfl, rfl, rfl⟩
  · decide

/-- C8 witness: instantiating the scan branch at a Search(cadence=2) state
whose cadence counter has just reached 2. -/
theorem search_scan_cadence_discipline_witness :
    (SearchBehavior.update ⟨false, 2, 1, -1, 2, 2, none⟩ "up" ⟨5, 5⟩
        grid10).behavior.step_count = 0 ∧
    (SearchBehavior.update ⟨false, 2, 1, -1, 2, 2, none⟩ "up" ⟨5, 5⟩
        grid10).behavior.total_steps = (2 : Int) ∧
    (SearchBehavior.update ⟨false, 2, 1, -1, 2, 2, none⟩ "up" ⟨5, 5⟩
        grid10).events =
      [Event.scan_completed (scanSquare 1 ⟨5, 5⟩ grid10)] ∧
    (SearchBehavior.update ⟨false, 2, 1, -1, 2, 2, none⟩ "up" ⟨5, 5⟩
        grid10).behavior.current_action = none :=
  (search_scan_cadence_discipline.1 ⟨false, 2, 1, -1, 2, 2, none⟩ "up"
    ⟨5, 5⟩ grid10 rfl rfl (by decide)).1 (by decide)

/-- C9: `trigger` calls exactly the handlers subscribed to the triggered
event type, in subscription order, each with the same single event value
built from the payload; with no subscribed handler it performs no call;
and after `clear_all` it performs no call for any event type. -/
theorem trigger_invokes_handlers_in_subscription_order :
    (∀ (α π : Type) (regs : List (String × α)) (n : String) (p : π),
      EventManager.trigger (registerAll regs ⟨[]⟩) n p =
        ((regs.filter (fun r => r.1 = n)).map Prod.snd).map
          (fun cb => (cb, ⟨n, p⟩))) ∧
    (∀ (α π : Type) (em : EventManager α) (n : String) (p : π),
      em.handlersFor n = [] → em.trigger n p = []) ∧
    (∀ (α π : Type) (em : EventManager α) (n : String) (p : π),
      (em.clear_all).trigger n p = []) := by
  refine ⟨?_, ?_, ?_⟩
  · intro α π regs n p
    rw [trigger_eq_handlersFor, handlersFor_registerAll]
    have hnil : (⟨[]⟩ : EventManager α).handlersFor n = [] := rfl
    rw [hnil]
    rfl
  · intro α π em n p h
    rw [trigger_eq_handlersFor, h]
    rfl
  · intro α π em n p
    rfl

/-- C9 witness: triggering on an empty manager, which has no handlers for
the event type, performs no call. -/
theorem trigger_invokes_handlers_in_subscription_order_witness :
    EventManager.trigger (⟨[]⟩ : EventManager Nat) "tick" (0 : Nat) = [] :=
  trigger_invokes_handlers_in_subscription_order.2.1 Nat Nat ⟨[]⟩ "tick" 0
    rfl

/-- C10: a freshly constructed Patrol with an empty waypoint list does not
return normally from its first `update` (the unguarded index into the
empty list raises), while under the non-empty precondition — with the
maintained in-bounds waypoint index — every `update` returns normally:
the error branch is unreachable. -/
theorem patrol_update_requires_nonempty_waypoints :
    PatrolBehavior.update ⟨false, [], 0, -1, 0, none⟩ ⟨0, 0⟩ grid10 =
      none ∧
    (∀ (b : PatrolBehavior) (pos : Position) (g : Grid),
      b.waypoints ≠ [] → b.current_waypoint_index < b.waypoints.length →
      (b.update pos g).isSome = true) := by
  constructor
  · rfl
  · intro b pos g hw hidx
    unfold PatrolBehavior.update
    by_cases hc : b.completed = true
    · rw [if_pos hc]
      rfl
    · rw [if_neg hc]
      by_cases hn : needsNewMove b.current_move_behavior = true
      · rw [if_pos hn]
        rw [List.get?_eq_get hidx]
        dsimp only
        split <;> (try split) <;> rfl
      · rw [if_neg hn]
        cases hm : b.current_move_behavior with
        | none => exact absurd (by rw [hm]; rfl) hn
        | some mb => rfl

/-- C10 witness: a non-empty single-waypoint patrol's update returns
normally. -/
theorem patrol_update_requires_nonempty_waypoints_witness :
    (PatrolBehavior.update ⟨false, [⟨0, 0⟩], 0, -1, 0, none⟩ ⟨0, 0⟩
      grid10).isSome = true :=
  patrol_update_requires_nonempty_waypoints.2
    ⟨false, [⟨0, 0⟩], 0, -1, 0, none⟩ ⟨0, 0⟩ grid10 (by decide) (by decide)

end Swarm
